import Mathlib

/-!
Shallow embedding of sys-utils/mountpoint.c (util-linux).

The program decides whether a path is the root of a mounted filesystem.
We model the external world (mount table, path canonicalization, stat and
lstat results) as an explicit environment of pure functions, and translate
the program control flow of dir_to_device, print_devno and main into pure
Lean functions over that environment.
-/

namespace Mountpoint

/-- Exit code for success, from stdlib EXIT_SUCCESS. -/
def EXIT_SUCCESS : Nat := 0

/-- Exit code for generic failure, from stdlib EXIT_FAILURE. -/
def EXIT_FAILURE : Nat := 1

/-- Exit code for "not a mountpoint", the MOUNTPOINT_EXIT_NOMNT macro in
mountpoint.c. -/
def MOUNTPOINT_EXIT_NOMNT : Nat := 32

/-- Size of the on-stack buffer in the fallback branch of dir_to_device
(PATH_MAX on Linux). -/
def PATH_MAX : Nat := 4096

/-- Result of a stat or lstat call: device id, inode, raw device number,
and the two mode classification bits the program inspects (S_ISBLK and
S_ISLNK of st_mode). -/
structure StatT where
  st_dev : Nat
  st_ino : Nat
  st_rdev : Nat
  isBlockDevice : Bool
  isSymlink : Bool
deriving DecidableEq, Repr

/-- One mount-table entry as the program consumes it through libmount:
a target path and a device number (mnt_fs_get_target, mnt_fs_get_devno).
Targets are stored in canonical form, as produced by the snapshot source. -/
structure libmnt_fs where
  target : String
  devno : Nat
deriving DecidableEq, Repr

/-- The external world of one invocation: the mount-table snapshot
(none when mnt_new_table_from_file fails), the canonicalizer
mnt_resolve_path (none when it returns NULL), and the stat and lstat
primitives (none on failure). -/
structure Env where
  mountinfo : Option (List libmnt_fs)
  resolve_path : String → Option String
  stat : String → Option StatT
  lstat : String → Option StatT

/-- The canonicalized form of a path as dir_to_device uses it:
mnt_resolve_path when it succeeds, the raw path otherwise
(the `cn ? cn : ctl->path` expression). -/
def canonOf (env : Env) (path : String) : String :=
  (env.resolve_path path).getD path

/-- The fallback decision formula of dir_to_device:
`ctl->st.st_dev != pst.st_dev || ctl->st.st_ino == pst.st_ino`. -/
def detect_via_fallback (st pst : StatT) : Bool :=
  st.st_dev != pst.st_dev || st.st_ino == pst.st_ino

/-- Modelled from the spec: mnt_table_find_target with MNT_ITER_BACKWARD
(libmount code, not under src/). Per the spec it searches the snapshot
entries for the one whose target equals the canonicalized path, scanning
in reverse chronological mount order and returning the first (most
recent) match; the path-resolution cache attached to the table performs
the canonicalization, which here is applied by the caller via canonOf. -/
def mnt_table_find_target (tb : List libmnt_fs) (cpath : String) : Option libmnt_fs :=
  tb.reverse.find? (fun fs => fs.target == cpath)

/-- The mount-table strategy as a boolean verdict: an entry whose target
equals the canonicalized path exists in the backward search. -/
def detect_via_table (tb : List libmnt_fs) (cpath : String) : Bool :=
  (mnt_table_find_target tb cpath).isSome

/-- The fallback branch of dir_to_device (mount table unavailable): it
canonicalizes the path, forms "<canonical>/..", rejects it when the
snprintf result would not fit in the PATH_MAX buffer, stats the parent,
and applies the device/inode comparison, yielding the path's own st_dev
on success. -/
def dir_to_device_fallback (env : Env) (path : String) (st : StatT) : Option Nat :=
  if PATH_MAX ≤ (canonOf env path ++ "/..").length then none
  else
    match env.stat (canonOf env path ++ "/..") with
    | none => none
    | some pst =>
        if detect_via_fallback st pst then some st.st_dev else none

/-- The mount-table branch of dir_to_device: backward lookup of the
canonicalized path, yielding the device number of the found entry. -/
def dir_to_device_table (env : Env) (tb : List libmnt_fs) (path : String) : Option Nat :=
  match mnt_table_find_target tb (canonOf env path) with
  | none => none
  | some fs => some fs.devno

/-- Translation of dir_to_device: returns the device number stored into
ctl->dev on success (rc = 0), none on failure (rc = -1).  When
mnt_new_table_from_file fails it runs the traditional fallback,
otherwise the mount-table lookup. -/
def dir_to_device (env : Env) (path : String) (st : StatT) : Option Nat :=
  match env.mountinfo with
  | none => dir_to_device_fallback env path st
  | some tb => dir_to_device_table env tb path

/-- Reduction of dir_to_device when the snapshot is unavailable. -/
theorem dir_to_device_of_no_table (env : Env) (path : String) (st : StatT)
    (hm : env.mountinfo = none) :
    dir_to_device env path st = dir_to_device_fallback env path st := by
  unfold dir_to_device
  rw [hm]

/-- Reduction of dir_to_device when the snapshot loads. -/
theorem dir_to_device_of_table (env : Env) (path : String) (st : StatT)
    (tb : List libmnt_fs) (hm : env.mountinfo = some tb) :
    dir_to_device env path st = dir_to_device_table env tb path := by
  unfold dir_to_device
  rw [hm]

/-- The major half of a dev_t, after the glibc gnu_dev_major encoding
used by major() in print_devno and main. -/
def dev_major (d : Nat) : Nat :=
  ((d >>> 8) &&& 0xfff) ||| ((d >>> 32) &&& 0xfffffffffffff000)

/-- The minor half of a dev_t, after the glibc gnu_dev_minor encoding
used by minor() in print_devno and main. -/
def dev_minor (d : Nat) : Nat :=
  (d &&& 0xff) ||| ((d >>> 12) &&& 0xffffff00)

/-- The "%u:%u" line printed for a device number. -/
def devnoOutput (d : Nat) : String :=
  toString (dev_major d) ++ ":" ++ toString (dev_minor d)

/-- The parsed command-line flags of the control struct. -/
structure Ctl where
  quiet : Bool
  nofollow : Bool
  fs_devno : Bool
  dev_devno : Bool
deriving DecidableEq, Repr

/-- Observable outcome of one invocation: the exit status, the lines
printed to standard output and to standard error, whether the target
path was ever statted, and whether dir_to_device was consulted. -/
structure RunResult where
  exitCode : Nat
  stdout : List String
  stderr : List String
  statCalled : Bool
  detectorCalled : Bool
deriving DecidableEq, Repr

/-- Translation of main after option parsing, for an invocation with
exactly one path argument: the mutual-exclusion check of --devno and
--nofollow, the stat or lstat of the target, print_devno for --devno,
the symlink short-circuit and dir_to_device call, and the final
reporting.  Mirrors the control flow of main in mountpoint.c. -/
def main (env : Env) (ctl : Ctl) (path : String) : RunResult :=
  if ctl.nofollow && ctl.dev_devno then
    { exitCode := EXIT_FAILURE
      stdout := []
      stderr := ["--devno and --nofollow are mutually exclusive"]
      statCalled := false
      detectorCalled := false }
  else
    match (if ctl.nofollow then env.lstat path else env.stat path) with
    | none =>
        { exitCode := EXIT_FAILURE
          stdout := []
          stderr := if ctl.quiet then [] else [path]
          statCalled := true
          detectorCalled := false }
    | some st =>
        if ctl.dev_devno then
          if st.isBlockDevice then
            { exitCode := EXIT_SUCCESS
              stdout := [devnoOutput st.st_rdev]
              stderr := []
              statCalled := true
              detectorCalled := false }
          else
            { exitCode := MOUNTPOINT_EXIT_NOMNT
              stdout := []
              stderr := if ctl.quiet then [] else [path ++ ": not a block device"]
              statCalled := true
              detectorCalled := false }
        else if ctl.nofollow && st.isSymlink then
          { exitCode := MOUNTPOINT_EXIT_NOMNT
            stdout := if ctl.quiet then [] else [path ++ " is not a mountpoint"]
            stderr := []
            statCalled := true
            detectorCalled := false }
        else
          match dir_to_device env path st with
          | none =>
              { exitCode := MOUNTPOINT_EXIT_NOMNT
                stdout := if ctl.quiet then [] else [path ++ " is not a mountpoint"]
                stderr := []
                statCalled := true
                detectorCalled := true }
          | some dev =>
              if ctl.fs_devno then
                { exitCode := EXIT_SUCCESS
                  stdout := [devnoOutput dev]
                  stderr := []
                  statCalled := true
                  detectorCalled := true }
              else
                { exitCode := EXIT_SUCCESS
                  stdout := if ctl.quiet then [] else [path ++ " is a mountpoint"]
                  stderr := []
                  statCalled := true
                  detectorCalled := true }

/-- Copy of a control struct with the quiet flag set to a given value;
used to compare an invocation with and without quiet mode. -/
def setQuiet (ctl : Ctl) (q : Bool) : Ctl :=
  { ctl with quiet := q }

/-- The fallback formula as a proposition: device ids differ, or the
inodes coincide. -/
theorem detect_via_fallback_iff (st pst : StatT) :
    detect_via_fallback st pst = true ↔
      (st.st_dev ≠ pst.st_dev ∨ st.st_ino = pst.st_ino) := by
  simp [detect_via_fallback]

/-! Concrete fixtures used by counterexamples and witnesses. -/

/-- A stat result for an ordinary directory on device 5, inode 7. -/
def statX : StatT :=
  { st_dev := 5, st_ino := 7, st_rdev := 0,
    isBlockDevice := false, isSymlink := false }

/-- A stat result for the parent directory: same device 5, inode 9. -/
def statParentSameDev : StatT :=
  { st_dev := 5, st_ino := 9, st_rdev := 0,
    isBlockDevice := false, isSymlink := false }

/-- A control struct with every flag clear. -/
def ctlPlain : Ctl :=
  { quiet := false, nofollow := false, fs_devno := false, dev_devno := false }

/-- A world where the mount table is unavailable, canonicalization
fails, the path "/x" stats fine and every other path (in particular the
parent "/x/..") fails to stat. -/
def envParentStatFails : Env :=
  { mountinfo := none
    resolve_path := fun _ => none
    stat := fun p => if p == "/x" then some statX else none
    lstat := fun _ => none }

/-- A world where the mount table is unavailable and both "/x" and its
parent "/x/.." stat successfully on the same device with distinct
inodes. -/
def envFallbackOk : Env :=
  { mountinfo := none
    resolve_path := fun _ => none
    stat := fun p =>
      if p == "/x" then some statX
      else if p == "/x/.." then some statParentSameDev
      else none
    lstat := fun _ => none }

/-- A mount table holding two entries for the same target "/m": an
earlier mount on device 11 shadowed by a later mount on device 22. -/
def tbStacked : List libmnt_fs :=
  [{ target := "/m", devno := 11 }, { target := "/m", devno := 22 }]

/-- A world whose mount table is the stacked table tbStacked. -/
def envStacked : Env :=
  { mountinfo := some tbStacked
    resolve_path := fun _ => none
    stat := fun _ => some statX
    lstat := fun _ => none }

/-- C1. The claim says that when the mount table cannot be loaded and
the stat of the parent of the canonicalized path fails, the process
exits with the generic failure code.  In the code dir_to_device returns
-1 and main treats every detector failure as "not a mountpoint", so the
exit status is MOUNTPOINT_EXIT_NOMNT (32), not EXIT_FAILURE (1): at the
concrete invocation below, without --devno, with the table unavailable
and the parent stat failing, the exit status is 32 and differs from the
generic failure code. -/
theorem c1_counterexample :
    envParentStatFails.mountinfo = none ∧
    ctlPlain.dev_devno = false ∧
    envParentStatFails.stat (canonOf envParentStatFails "/x" ++ "/..") = none ∧
    (main envParentStatFails ctlPlain "/x").exitCode = MOUNTPOINT_EXIT_NOMNT ∧
    MOUNTPOINT_EXIT_NOMNT ≠ EXIT_FAILURE := by
  refine ⟨rfl, rfl, rfl, rfl, by decide⟩

/-- C1 (amended). If the mount-table snapshot is unavailable and the
stat of the parent of the canonicalized path fails, the detection fails
and the process exits with the non-mountpoint code MOUNTPOINT_EXIT_NOMNT
(reporting "not a mountpoint"), not the generic failure code. -/
theorem c1_parent_stat_fail_exits_nomnt (env : Env) (ctl : Ctl) (path : String)
    (st : StatT)
    (hm : env.mountinfo = none)
    (hdev : ctl.dev_devno = false)
    (hnf : ctl.nofollow = false)
    (hst : env.stat path = some st)
    (hpar : env.stat (canonOf env path ++ "/..") = none) :
    (main env ctl path).exitCode = MOUNTPOINT_EXIT_NOMNT := by
  have hd : dir_to_device env path st = none := by
    rw [dir_to_device_of_no_table env path st hm]
    unfold dir_to_device_fallback
    rw [hpar]
    split <;> rfl
  simp [main, hdev, hnf, hst, hd]

/-- C1 witness: the amended theorem applied at the concrete world of the
counterexample. -/
theorem c1_witness :
    (main envParentStatFails ctlPlain "/x").exitCode = MOUNTPOINT_EXIT_NOMNT :=
  c1_parent_stat_fail_exits_nomnt envParentStatFails ctlPlain "/x" statX
    rfl rfl rfl rfl rfl

/-- C2. In the fallback strategy (mount table unavailable), when the
parent of the canonicalized path stats successfully and the constructed
"<canonical>/.." name fits the buffer, the decision is positive exactly
when the device ids differ or the inodes coincide, and in the positive
case the device carried on the decision is the path's own st_dev;
otherwise the decision is negative. -/
theorem c2_fallback_decision (env : Env) (path : String) (st pst : StatT)
    (hm : env.mountinfo = none)
    (hfit : (canonOf env path ++ "/..").length < PATH_MAX)
    (hpar : env.stat (canonOf env path ++ "/..") = some pst) :
    (dir_to_device env path st = some st.st_dev ↔
      (st.st_dev ≠ pst.st_dev ∨ st.st_ino = pst.st_ino)) ∧
    (dir_to_device env path st = none ↔
      ¬(st.st_dev ≠ pst.st_dev ∨ st.st_ino = pst.st_ino)) := by
  have hd : dir_to_device env path st =
      (if detect_via_fallback st pst then some st.st_dev else none) := by
    rw [dir_to_device_of_no_table env path st hm]
    unfold dir_to_device_fallback
    rw [if_neg (Nat.not_le.mpr hfit), hpar]
  rw [hd]
  by_cases hf : detect_via_fallback st pst = true
  · rw [if_pos hf]
    have := (detect_via_fallback_iff st pst).mp hf
    simp [this]
  · rw [if_neg hf]
    have : ¬(st.st_dev ≠ pst.st_dev ∨ st.st_ino = pst.st_ino) :=
      fun hc => hf ((detect_via_fallback_iff st pst).mpr hc)
    simp [this]

/-- C2 witness: the fallback decision theorem applied at a concrete
world where "/x" and its parent share device 5 and have distinct inodes,
so the decision is negative. -/
theorem c2_witness :
    (dir_to_device envFallbackOk "/x" statX = some statX.st_dev ↔
      (statX.st_dev ≠ statParentSameDev.st_dev ∨
        statX.st_ino = statParentSameDev.st_ino)) ∧
    (dir_to_device envFallbackOk "/x" statX = none ↔
      ¬(statX.st_dev ≠ statParentSameDev.st_dev ∨
        statX.st_ino = statParentSameDev.st_ino)) :=
  c2_fallback_decision envFallbackOk "/x" statX statParentSameDev
    rfl (by decide) rfl

/-- C3. With the mount-table snapshot loaded, the detector scans the
entries in reverse chronological order and the first match wins: if the
table splits as l1 ++ fs :: l2 where the target of fs equals the
canonicalized path and no later entry (in l2) matches, the decision
carries the device number of fs; and if no entry at all matches, the
decision is negative. -/
theorem c3_backward_search (env : Env) (path : String) (st : StatT)
    (tb : List libmnt_fs)
    (hm : env.mountinfo = some tb) :
    (∀ l1 fs l2, tb = l1 ++ fs :: l2 →
      fs.target = canonOf env path →
      (∀ e ∈ l2, e.target ≠ canonOf env path) →
      dir_to_device env path st = some fs.devno) ∧
    ((∀ e ∈ tb, e.target ≠ canonOf env path) →
      dir_to_device env path st = none) := by
  constructor
  · intro l1 fs l2 hsplit htarget hlater
    have hfind : mnt_table_find_target tb (canonOf env path) = some fs := by
      unfold mnt_table_find_target
      rw [hsplit]
      simp only [List.reverse_append, List.reverse_cons, List.append_assoc,
        List.find?_append]
      have h2 : l2.reverse.find? (fun fs => fs.target == canonOf env path)
          = none := by
        rw [List.find?_eq_none]
        intro x hx
        simp only [beq_iff_eq]
        exact hlater x (List.mem_reverse.mp hx)
      rw [h2]
      simp [htarget]
    rw [dir_to_device_of_table env path st tb hm]
    unfold dir_to_device_table
    rw [hfind]
  · intro hnone
    have hfind : mnt_table_find_target tb (canonOf env path) = none := by
      unfold mnt_table_find_target
      rw [List.find?_eq_none]
      intro x hx
      simp only [beq_iff_eq]
      exact hnone x (List.mem_reverse.mp hx)
    rw [dir_to_device_of_table env path st tb hm]
    unfold dir_to_device_table
    rw [hfind]

/-- C3 witness: on the stacked table with two entries for target "/m"
(devices 11 then 22), detection at "/m" returns the later entry's device
22. -/
theorem c3_witness :
    dir_to_device envStacked "/m" statX = some 22 :=
  (c3_backward_search envStacked "/m" statX tbStacked rfl).1
    [{ target := "/m", devno := 11 }] { target := "/m", devno := 22 } []
    rfl rfl (by simp)

/-- A stat result for a symbolic link (as returned by lstat). -/
def statSymlink : StatT :=
  { st_dev := 5, st_ino := 40, st_rdev := 0,
    isBlockDevice := false, isSymlink := true }

/-- A stat result of a block device node with raw device number 2049,
i.e. major 8, minor 1. -/
def statBlk : StatT :=
  { st_dev := 5, st_ino := 50, st_rdev := 2049,
    isBlockDevice := true, isSymlink := false }

/-- A world whose lstat reports "/sym" as a symlink and whose stat
reports "/dev/sda1" as a block device; the mount table is present and
empty. -/
def envLinkAndBlk : Env :=
  { mountinfo := some []
    resolve_path := fun _ => none
    stat := fun p => if p == "/dev/sda1" then some statBlk else some statX
    lstat := fun p => if p == "/sym" then some statSymlink else none }

/-- C4. With --nofollow, a path that lstats as a symlink is reported as
"not a mountpoint" with the non-mountpoint exit code, whatever world the
symlink points into, and dir_to_device is never consulted. -/
theorem c4_nofollow_symlink (env : Env) (ctl : Ctl) (path : String) (st : StatT)
    (hnf : ctl.nofollow = true)
    (hdev : ctl.dev_devno = false)
    (hl : env.lstat path = some st)
    (hlnk : st.isSymlink = true) :
    (main env ctl path).exitCode = MOUNTPOINT_EXIT_NOMNT ∧
    (main env ctl path).detectorCalled = false ∧
    (ctl.quiet = false →
      (main env ctl path).stdout = [path ++ " is not a mountpoint"]) := by
  refine ⟨?_, ?_, ?_⟩ <;> simp [main, hnf, hdev, hl, hlnk]

/-- C4 witness: the symlink short-circuit at the concrete world where
"/sym" lstats as a symlink. -/
theorem c4_witness :
    (main envLinkAndBlk { ctlPlain with nofollow := true } "/sym").exitCode
        = MOUNTPOINT_EXIT_NOMNT ∧
    (main envLinkAndBlk { ctlPlain with nofollow := true } "/sym").detectorCalled
        = false ∧
    (({ ctlPlain with nofollow := true } : Ctl).quiet = false →
      (main envLinkAndBlk { ctlPlain with nofollow := true } "/sym").stdout
        = ["/sym is not a mountpoint"]) :=
  c4_nofollow_symlink envLinkAndBlk { ctlPlain with nofollow := true } "/sym"
    statSymlink rfl rfl rfl rfl

/-- C5. With --devno (and without --nofollow, which would be a usage
error), the detector is never consulted: a non-block-device path fails
with a warning (suppressed when quiet) and the non-mountpoint exit code,
and a block-device path prints its major:minor pair and exits with the
success code. -/
theorem c5_devno (env : Env) (ctl : Ctl) (path : String) (st : StatT)
    (hdev : ctl.dev_devno = true)
    (hnf : ctl.nofollow = false)
    (hst : env.stat path = some st) :
    (main env ctl path).detectorCalled = false ∧
    (st.isBlockDevice = false →
      (main env ctl path).exitCode = MOUNTPOINT_EXIT_NOMNT ∧
      (ctl.quiet = false →
        (main env ctl path).stderr = [path ++ ": not a block device"]) ∧
      (ctl.quiet = true → (main env ctl path).stderr = [])) ∧
    (st.isBlockDevice = true →
      (main env ctl path).exitCode = EXIT_SUCCESS ∧
      (main env ctl path).stdout = [devnoOutput st.st_rdev]) := by
  cases hb : st.isBlockDevice <;>
    refine ⟨?_, fun hb2 => ⟨?_, fun hq => ?_, fun hq => ?_⟩, fun hb2 => ⟨?_, ?_⟩⟩ <;>
    simp_all [main]

/-- C5 witness: --devno on the block device node "/dev/sda1" with raw
device 2049 prints "8:1" and succeeds. -/
theorem c5_witness :
    (main envLinkAndBlk { ctlPlain with dev_devno := true } "/dev/sda1").detectorCalled
        = false ∧
    (statBlk.isBlockDevice = false →
      (main envLinkAndBlk { ctlPlain with dev_devno := true } "/dev/sda1").exitCode
          = MOUNTPOINT_EXIT_NOMNT ∧
      (({ ctlPlain with dev_devno := true } : Ctl).quiet = false →
        (main envLinkAndBlk { ctlPlain with dev_devno := true } "/dev/sda1").stderr
          = ["/dev/sda1" ++ ": not a block device"]) ∧
      (({ ctlPlain with dev_devno := true } : Ctl).quiet = true →
        (main envLinkAndBlk { ctlPlain with dev_devno := true } "/dev/sda1").stderr
          = [])) ∧
    (statBlk.isBlockDevice = true →
      (main envLinkAndBlk { ctlPlain with dev_devno := true } "/dev/sda1").exitCode
          = EXIT_SUCCESS ∧
      (main envLinkAndBlk { ctlPlain with dev_devno := true } "/dev/sda1").stdout
          = [devnoOutput statBlk.st_rdev]) :=
  c5_devno envLinkAndBlk { ctlPlain with dev_devno := true } "/dev/sda1" statBlk
    rfl rfl rfl

/-- C7. When --devno and --nofollow are both given, main exits with the
generic failure code before any stat of the target path occurs. -/
theorem c7_mutually_exclusive (env : Env) (ctl : Ctl) (path : String)
    (hnf : ctl.nofollow = true)
    (hdev : ctl.dev_devno = true) :
    (main env ctl path).exitCode = EXIT_FAILURE ∧
    (main env ctl path).statCalled = false := by
  constructor <;> simp [main, hnf, hdev]

/-- C7 witness: the mutual-exclusion exit at a concrete invocation. -/
theorem c7_witness :
    (main envLinkAndBlk { ctlPlain with nofollow := true, dev_devno := true }
        "/sym").exitCode = EXIT_FAILURE ∧
    (main envLinkAndBlk { ctlPlain with nofollow := true, dev_devno := true }
        "/sym").statCalled = false :=
  c7_mutually_exclusive envLinkAndBlk
    { ctlPlain with nofollow := true, dev_devno := true } "/sym" rfl rfl

/-- C8. The three exit codes are pairwise distinct (0 for success, 1 for
generic failure, 32 for "not a mountpoint"), and every invocation exits
with one of them. -/
theorem c8_exit_codes (env : Env) (ctl : Ctl) (path : String) :
    EXIT_SUCCESS ≠ MOUNTPOINT_EXIT_NOMNT ∧
    EXIT_FAILURE ≠ MOUNTPOINT_EXIT_NOMNT ∧
    EXIT_SUCCESS ≠ EXIT_FAILURE ∧
    ((main env ctl path).exitCode = EXIT_SUCCESS ∨
      (main env ctl path).exitCode = EXIT_FAILURE ∨
      (main env ctl path).exitCode = MOUNTPOINT_EXIT_NOMNT) := by
  refine ⟨by decide, by decide, by decide, ?_⟩
  unfold main
  repeat' split
  all_goals simp [EXIT_SUCCESS, EXIT_FAILURE, MOUNTPOINT_EXIT_NOMNT]

/-- Control struct for a quiet --devno invocation. -/
def ctlQuietDevno : Ctl :=
  { quiet := true, nofollow := false, fs_devno := false, dev_devno := true }

/-- C6. The claim says that with quiet set no informational or result
text is emitted.  The device-number printf of print_devno (and the one
for --fs-devno) is not guarded by the quiet flag, so a quiet --devno
invocation on a block device still prints the major:minor pair: at the
concrete invocation below, quiet is set and standard output carries the
line "8:1". -/
theorem c6_counterexample :
    ctlQuietDevno.quiet = true ∧
    (main envLinkAndBlk ctlQuietDevno "/dev/sda1").stdout = ["8:1"] ∧
    (main envLinkAndBlk ctlQuietDevno "/dev/sda1").stdout ≠ [] := by
  refine ⟨rfl, by decide, by decide⟩

/-- C6 (amended). Quiet mode never changes the exit status, and it
suppresses all informational and diagnostic text (the mountpoint status
messages, the stat-failure message, and the not-a-block-device warning);
requested device-number output from --fs-devno or --devno is still
printed even when quiet.  Stated for invocations that pass the
mutual-exclusion check, whose diagnostic is printed regardless of
quiet. -/
theorem c6_quiet_invariance (env : Env) (ctl : Ctl) (path : String)
    (hux : (ctl.nofollow && ctl.dev_devno) = false) :
    (main env (setQuiet ctl true) path).exitCode
        = (main env (setQuiet ctl false) path).exitCode ∧
    (main env (setQuiet ctl true) path).stderr = [] ∧
    (ctl.fs_devno = false → ctl.dev_devno = false →
      (main env (setQuiet ctl true) path).stdout = []) := by
  obtain ⟨q, nf, fd, dd⟩ := ctl
  simp only [Bool.and_eq_false_iff] at hux
  refine ⟨?_, ?_, fun hfd hdd => ?_⟩ <;>
    simp only [main, setQuiet] <;>
    (repeat' split) <;>
    simp_all

/-- C6 witness: the amended theorem at the quiet --devno invocation on a
block device. -/
theorem c6_witness :
    (main envLinkAndBlk (setQuiet ctlQuietDevno true) "/dev/sda1").exitCode
        = (main envLinkAndBlk (setQuiet ctlQuietDevno false) "/dev/sda1").exitCode ∧
    (main envLinkAndBlk (setQuiet ctlQuietDevno true) "/dev/sda1").stderr = [] ∧
    (ctlQuietDevno.fs_devno = false → ctlQuietDevno.dev_devno = false →
      (main envLinkAndBlk (setQuiet ctlQuietDevno true) "/dev/sda1").stdout = []) :=
  c6_quiet_invariance envLinkAndBlk ctlQuietDevno "/dev/sda1" rfl

/-- A stat result for the root of a mounted filesystem on device 22. -/
def statMountRoot : StatT :=
  { st_dev := 22, st_ino := 3, st_rdev := 0,
    isBlockDevice := false, isSymlink := false }

/-- C9. The mount-table strategy and the device-boundary fallback agree
on every path that is not a bind mount.  The two world-consistency
hypotheses say exactly that: if the canonical path is a mount target in
the table, then crossing to the parent changes the device id (this is
what fails for a bind mount, the documented blind spot of the fallback);
and if it is not a mount target, it lives on the same device as its
parent with a distinct inode.  Under them the backward table lookup and
the device/inode comparison compute the same verdict. -/
theorem c9_strategies_agree (tb : List libmnt_fs) (cpath : String) (st pst : StatT)
    (hmounted : (∃ fs ∈ tb, fs.target = cpath) → st.st_dev ≠ pst.st_dev)
    (hunmounted : (∀ fs ∈ tb, fs.target ≠ cpath) →
      st.st_dev = pst.st_dev ∧ st.st_ino ≠ pst.st_ino) :
    detect_via_table tb cpath = detect_via_fallback st pst := by
  by_cases h : ∃ fs ∈ tb, fs.target = cpath
  · have ht : detect_via_table tb cpath = true := by
      obtain ⟨fs, hmem, htar⟩ := h
      simp only [detect_via_table, mnt_table_find_target, List.find?_isSome]
      exact ⟨fs, List.mem_reverse.mpr hmem, by simp [htar]⟩
    have hf : detect_via_fallback st pst = true :=
      (detect_via_fallback_iff st pst).mpr (Or.inl (hmounted h))
    rw [ht, hf]
  · push_neg at h
    obtain ⟨hdev, hino⟩ := hunmounted h
    have ht : detect_via_table tb cpath = false := by
      have hn : tb.reverse.find? (fun fs => fs.target == cpath) = none := by
        rw [List.find?_eq_none]
        intro x hx
        simp only [beq_iff_eq]
        exact h x (List.mem_reverse.mp hx)
      simp [detect_via_table, mnt_table_find_target, hn]
    have hf : detect_via_fallback st pst = false := by
      have hno : ¬(st.st_dev ≠ pst.st_dev ∨ st.st_ino = pst.st_ino) := by
        intro hc
        rcases hc with hc | hc
        · exact hc hdev
        · exact hino hc
      cases hfb : detect_via_fallback st pst
      · rfl
      · exact absurd ((detect_via_fallback_iff st pst).mp hfb) hno
    rw [ht, hf]

/-- C9 witness: on the stacked table, the path "/m" is a (non-bind)
mount target on device 22 whose parent lives on device 5; both
strategies answer true. -/
theorem c9_witness :
    detect_via_table tbStacked "/m" = detect_via_fallback statMountRoot statParentSameDev :=
  c9_strategies_agree tbStacked "/m" statMountRoot statParentSameDev
    (fun _ => by decide)
    (fun h => absurd rfl (h { target := "/m", devno := 11 } (by simp [tbStacked])))

/-- A canonical name of PATH_MAX characters, so that appending "/.."
overflows the fallback buffer. -/
def longName : String := String.mk (List.replicate PATH_MAX 'a')

/-- A world with no mount table whose canonicalizer returns the overlong
name for every path. -/
def envLongCanon : Env :=
  { mountinfo := none
    resolve_path := fun _ => some longName
    stat := fun _ => some statX
    lstat := fun _ => none }

/-- C10. In the fallback strategy, when "<canonical>/.." does not fit in
the PATH_MAX buffer, dir_to_device detects the snprintf truncation and
fails without consulting the stat primitive (the result is none for
every world with that canonicalizer, whatever its stat function
returns), and main then reports the non-mountpoint exit code, not the
generic failure code. -/
theorem c10_snprintf_truncation (env : Env) (ctl : Ctl) (path : String) (st : StatT)
    (hm : env.mountinfo = none)
    (hlong : PATH_MAX ≤ (canonOf env path ++ "/..").length) :
    dir_to_device env path st = none ∧
    (ctl.dev_devno = false → ctl.nofollow = false → env.stat path = some st →
      (main env ctl path).exitCode = MOUNTPOINT_EXIT_NOMNT ∧
      MOUNTPOINT_EXIT_NOMNT ≠ EXIT_FAILURE) := by
  have hd : dir_to_device env path st = none := by
    rw [dir_to_device_of_no_table env path st hm]
    unfold dir_to_device_fallback
    rw [if_pos hlong]
  refine ⟨hd, fun hdev hnf hst => ⟨?_, by decide⟩⟩
  simp [main, hdev, hnf, hst, hd]

/-- C10 witness: the truncation theorem at a world whose canonicalizer
produces a PATH_MAX-character name. -/
theorem c10_witness :
    dir_to_device envLongCanon "/p" statX = none ∧
    (ctlPlain.dev_devno = false → ctlPlain.nofollow = false →
      envLongCanon.stat "/p" = some statX →
      (main envLongCanon ctlPlain "/p").exitCode = MOUNTPOINT_EXIT_NOMNT ∧
      MOUNTPOINT_EXIT_NOMNT ≠ EXIT_FAILURE) :=
  c10_snprintf_truncation envLongCanon ctlPlain "/p" statX rfl
    (by
      have h1 : canonOf envLongCanon "/p" = longName := rfl
      rw [h1, String.length_append]
      have h2 : longName.length = PATH_MAX := by
        unfold longName
        rw [String.length_mk, List.length_replicate]
      rw [h2]
      exact Nat.le_add_right PATH_MAX _)

end Mountpoint
